import Mathlib

/-!
Shallow embedding of the GGFW Win32 windowing convenience layer
(src/Framework/Framework.cpp, src/Framework/Internals.cpp) and proofs of
the specification claims about it.

Machine integers of the C++ code are modelled as `Int` (no arithmetic in
the relevant code paths can overflow a 32-bit `int` starting from the
initial state, and no claim is about overflow behaviour); `HWND` handles
are modelled as natural numbers; `char*` strings as `String`, with a
nullable pointer as `Option String`.
-/

namespace GGFW

/-- A Win32 window handle (`HWND`), modelled as a natural number.
`0` stands for the null handle. -/
abbrev HWND := Nat

/-- Per-window bookkeeping record `in::WindowData`, with the fields that
`src/Framework/Framework.cpp` reads and writes (`hWnd`, `name`, `width`,
`height`, `xPos`, `yPos`, `isValid`, `isVisible`, `id`; the `msgThread`
pointer is represented by the transition system below instead of a field). -/
structure WindowData where
  hWnd : HWND
  name : String
  width : Int
  height : Int
  xPos : Int
  yPos : Int
  isValid : Bool
  isVisible : Bool
  id : Int
  deriving Repr, DecidableEq

/-- The global framework state `in::WindowInfo`, with the fields that
`src/Framework/Framework.cpp` reads and writes. -/
structure WindowInfoT where
  windows : List WindowData
  windowCount : Int
  windowsOpened : Int
  lastErrorCode : Int
  isInitialised : Bool
  isRunning : Bool
  windowIsFinished : Bool
  deriving Repr, DecidableEq

/-- `in::GetWindowData(HWND handle)` (Framework.cpp lines 126-136): scan
`WindowInfo.windows` and return the first entry whose `hWnd` equals
`handle` and whose `isValid` flag is set, or null (`none`) if there is no
such entry.  The second component of the result is the state of
`WindowInfo` when the function returns: the loop only reads, so it is the
input state. -/
def GetWindowDataH (info : WindowInfoT) (handle : HWND) :
    Option WindowData × WindowInfoT :=
  (info.windows.find? (fun i => i.hWnd == handle && i.isValid), info)

/-- `in::GetWindowData(int id)` (Framework.cpp lines 138-148): scan
`WindowInfo.windows` and return the first entry whose `id` equals the
argument and whose `isValid` flag is set, or null (`none`).  As above, the
second component is the unchanged `WindowInfo` state. -/
def GetWindowDataId (info : WindowInfoT) (id : Int) :
    Option WindowData × WindowInfoT :=
  (info.windows.find? (fun i => i.id == id && i.isValid), info)

/-- Per-window record `i::WindowData` of the Internals.cpp iteration of the
framework.  Its header is not in the repository; the only field the
available code touches is `id` (Internals.cpp line 99). -/
structure IWindowData where
  id : Int
  deriving Repr, DecidableEq

/-- The part of `i::ProgramState` that `i::GetWindowData` uses: the map
from native Win32 handles to window data
(`progState->win32->nativeHandleMap`) and the map from framework handles
to window data (`progState->handleMap`).  Both are modelled as association
lists with the map invariant (each key at most once) kept as an explicit
hypothesis where needed. -/
structure IProgramState where
  nativeHandleMap : List (HWND × IWindowData)
  handleMap : List (Int × IWindowData)
  deriving Repr, DecidableEq

/-- `i::GetWindowData(HWND handle)` (Internals.cpp lines 70-79):
`nativeHandleMap.find(handle)`; return the mapped record if the key is
present, null otherwise.  The second component is the program state when
the function returns: the lookup only reads, so it is the input state. -/
def iGetWindowDataH (st : IProgramState) (handle : HWND) :
    Option IWindowData × IProgramState :=
  (match st.nativeHandleMap.find? (fun p => p.1 == handle) with
   | some p => some p.2
   | none => none, st)

/-- `i::GetWindowData(f::WndH handle)` (Internals.cpp lines 81-90):
`handleMap.find(handle)`; return the mapped record if the key is present,
null otherwise.  The second component is the unchanged program state. -/
def iGetWindowDataId (st : IProgramState) (handle : Int) :
    Option IWindowData × IProgramState :=
  (match st.handleMap.find? (fun p => p.1 == handle) with
   | some p => some p.2
   | none => none, st)

/-! ### C1: handle-to-data lookup -/

/-- Sample state with one valid window, used to witness the lookup claim. -/
def sampleWindow : WindowData :=
  { hWnd := 5, name := "w", width := 10, height := 20, xPos := 0, yPos := 0,
    isValid := true, isVisible := true, id := 1 }

/-- Sample framework state holding `sampleWindow`. -/
def sampleInfo : WindowInfoT :=
  { windows := [sampleWindow], windowCount := 1, windowsOpened := 1,
    lastErrorCode := 0, isInitialised := true, isRunning := true,
    windowIsFinished := false }

/-- Sample Internals.cpp program state with one entry in each map. -/
def sampleIState : IProgramState :=
  { nativeHandleMap := [(5, ⟨1⟩)], handleMap := [(1, ⟨1⟩)] }

/-- C1: for every window handle `handle` (and likewise every window id
`idq`), `GetWindowData` returns the stored `WindowData` record whose
`hWnd` (resp. `id`) field equals the argument and whose `isValid` flag is
true if such a record is in the window list, and null otherwise; the map
variants of Internals.cpp return the record stored under the key if the
key is in the map and null otherwise; none of the lookups modifies the
window list or maps. -/
theorem getWindowData_correct (info : WindowInfoT) (st : IProgramState)
    (handle : HWND) (idq : Int) :
    (∀ w, (GetWindowDataH info handle).1 = some w →
        w ∈ info.windows ∧ w.hWnd = handle ∧ w.isValid = true) ∧
    ((GetWindowDataH info handle).1 = none →
        ∀ w ∈ info.windows, ¬(w.hWnd = handle ∧ w.isValid = true)) ∧
    (GetWindowDataH info handle).2 = info ∧
    (∀ w, (GetWindowDataId info idq).1 = some w →
        w ∈ info.windows ∧ w.id = idq ∧ w.isValid = true) ∧
    ((GetWindowDataId info idq).1 = none →
        ∀ w ∈ info.windows, ¬(w.id = idq ∧ w.isValid = true)) ∧
    (GetWindowDataId info idq).2 = info ∧
    (∀ d, (iGetWindowDataH st handle).1 = some d →
        (handle, d) ∈ st.nativeHandleMap) ∧
    ((iGetWindowDataH st handle).1 = none →
        ∀ p ∈ st.nativeHandleMap, p.1 ≠ handle) ∧
    (iGetWindowDataH st handle).2 = st ∧
    (∀ d, (iGetWindowDataId st idq).1 = some d → (idq, d) ∈ st.handleMap) ∧
    ((iGetWindowDataId st idq).1 = none → ∀ p ∈ st.handleMap, p.1 ≠ idq) ∧
    (iGetWindowDataId st idq).2 = st := by
  refine ⟨?_, ?_, rfl, ?_, ?_, rfl, ?_, ?_, rfl, ?_, ?_, rfl⟩
  · intro w h
    have hm := List.mem_of_find?_eq_some h
    have hp := List.find?_some h
    simp only [Bool.and_eq_true, beq_iff_eq] at hp
    exact ⟨hm, hp.1, hp.2⟩
  · intro h w hw hcontra
    have := List.find?_eq_none.mp h w hw
    simp only [Bool.and_eq_true, beq_iff_eq] at this
    exact this ⟨hcontra.1, hcontra.2⟩
  · intro w h
    have hm := List.mem_of_find?_eq_some h
    have hp := List.find?_some h
    simp only [Bool.and_eq_true, beq_iff_eq] at hp
    exact ⟨hm, hp.1, hp.2⟩
  · intro h w hw hcontra
    have := List.find?_eq_none.mp h w hw
    simp only [Bool.and_eq_true, beq_iff_eq] at this
    exact this ⟨hcontra.1, hcontra.2⟩
  · intro d h
    simp only [iGetWindowDataH] at h
    rcases heq : st.nativeHandleMap.find? (fun p => p.1 == handle) with _ | p
    · rw [heq] at h; exact absurd h (by simp)
    · rw [heq] at h
      have hm := List.mem_of_find?_eq_some heq
      have hp := List.find?_some heq
      simp only [beq_iff_eq] at hp
      simp only [Option.some.injEq] at h
      have : p = (handle, d) := by
        cases p; simp_all
      rw [← this]; exact hm
  · intro h p hp hcontra
    simp only [iGetWindowDataH] at h
    rcases heq : st.nativeHandleMap.find? (fun q => q.1 == handle) with _ | q
    · have := List.find?_eq_none.mp heq p hp
      simp only [beq_iff_eq] at this
      exact this hcontra
    · rw [heq] at h; exact absurd h (by simp)
  · intro d h
    simp only [iGetWindowDataId] at h
    rcases heq : st.handleMap.find? (fun p => p.1 == idq) with _ | p
    · rw [heq] at h; exact absurd h (by simp)
    · rw [heq] at h
      have hm := List.mem_of_find?_eq_some heq
      have hp := List.find?_some heq
      simp only [beq_iff_eq] at hp
      simp only [Option.some.injEq] at h
      have : p = (idq, d) := by
        cases p; simp_all
      rw [← this]; exact hm
  · intro h p hp hcontra
    simp only [iGetWindowDataId] at h
    rcases heq : st.handleMap.find? (fun q => q.1 == idq) with _ | q
    · have := List.find?_eq_none.mp heq p hp
      simp only [beq_iff_eq] at this
      exact this hcontra
    · rw [heq] at h; exact absurd h (by simp)

/-- Witness for C1 at concrete inputs: a successful lookup (handle 5,
id 1 in `sampleInfo`/`sampleIState`) and a failing one (handle 9, id 99). -/
theorem getWindowData_correct_witness :
    (sampleWindow ∈ sampleInfo.windows ∧ sampleWindow.hWnd = 5 ∧
      sampleWindow.isValid = true) ∧
    (∀ w ∈ sampleInfo.windows, ¬(w.hWnd = 9 ∧ w.isValid = true)) ∧
    (sampleWindow ∈ sampleInfo.windows ∧ sampleWindow.id = 1 ∧
      sampleWindow.isValid = true) ∧
    (∀ w ∈ sampleInfo.windows, ¬(w.id = 99 ∧ w.isValid = true)) ∧
    (((5 : HWND), (⟨1⟩ : IWindowData)) ∈ sampleIState.nativeHandleMap) ∧
    (∀ p ∈ sampleIState.nativeHandleMap, p.1 ≠ 9) ∧
    (((1 : Int), (⟨1⟩ : IWindowData)) ∈ sampleIState.handleMap) ∧
    (∀ p ∈ sampleIState.handleMap, p.1 ≠ 99) := by
  have h5 := getWindowData_correct sampleInfo sampleIState 5 1
  have h9 := getWindowData_correct sampleInfo sampleIState 9 99
  exact ⟨h5.1 sampleWindow (by decide),
         h9.2.1 (by decide),
         h5.2.2.2.1 sampleWindow (by decide),
         h9.2.2.2.2.1 (by decide),
         h5.2.2.2.2.2.2.1 ⟨1⟩ (by decide),
         h9.2.2.2.2.2.2.2.1 (by decide),
         h5.2.2.2.2.2.2.2.2.2.1 ⟨1⟩ (by decide),
         h9.2.2.2.2.2.2.2.2.2.2.1 (by decide)⟩

/-! ### C2, C9: window lifetime tracking -/

/-- `tsd::GetWindowCount` (Framework.cpp lines 286-289): returns
`WindowInfo.windowCount`. -/
def GetWindowCount (info : WindowInfoT) : Int := info.windowCount

/-- Effect on `WindowInfo` of one successful window creation: the body of
`in::WindowData::MessageHandler` up to the `notify_one` (Framework.cpp
lines 67-90: `windowCount += 1`, `windowsOpened += 1`,
`id = windowsOpened`, `ShowWindow(hWnd, 1)`) together with
`wndData->isValid = true` and the `windows.push_back(wndData)` of
`tsd::CreateWindow` (lines 222 and 228). -/
def applyCreate (info : WindowInfoT) (nm : String) (w h x y : Int)
    (hw : HWND) : WindowInfoT :=
  { info with
    windows := info.windows ++
      [{ hWnd := hw, name := nm, width := w, height := h, xPos := x,
         yPos := y, isValid := true, isVisible := true,
         id := info.windowsOpened + 1 }],
    windowCount := info.windowCount + 1,
    windowsOpened := info.windowsOpened + 1 }

/-- Effect on `WindowInfo` of a window's message pump exiting
(Framework.cpp lines 100-101): `windowCount -= 1` and the window's
`isValid` flag is cleared. -/
def applyPumpExit (info : WindowInfoT) (l₁ l₂ : List WindowData)
    (w : WindowData) : WindowInfoT :=
  { info with
    windows := l₁ ++ { w with isValid := false } :: l₂,
    windowCount := info.windowCount - 1 }

/-- The framework state at program start: no windows, counters zero. -/
def initialInfo : WindowInfoT :=
  { windows := [], windowCount := 0, windowsOpened := 0, lastErrorCode := 0,
    isInitialised := false, isRunning := true, windowIsFinished := false }

/-- States of `in::WindowInfo` reachable by runs of the framework:
start state, `tsd::Initialise`, `in::SetLastError`, successful window
creations, `WindowInfo.isRunning = false` from `in::WindowProc`, and
message-pump exits of windows whose pump is running. -/
inductive Reachable : WindowInfoT → Prop where
  | init : Reachable initialInfo
  | initialise (info : WindowInfoT) : Reachable info →
      Reachable { info with isInitialised := true }
  | setError (info : WindowInfoT) (c : Int) : Reachable info →
      Reachable { info with lastErrorCode := c }
  | stopRunning (info : WindowInfoT) : Reachable info →
      Reachable { info with isRunning := false }
  | create (info : WindowInfoT) (nm : String) (w h x y : Int) (hw : HWND) :
      Reachable info → Reachable (applyCreate info nm w h x y hw)
  | pumpExit (info : WindowInfoT) (l₁ l₂ : List WindowData)
      (w : WindowData) : Reachable info → info.windows = l₁ ++ w :: l₂ →
      w.isValid = true → Reachable (applyPumpExit info l₁ l₂ w)

/-- The lifetime bookkeeping invariant: window ids are distinct, positive
and bounded by `windowsOpened`, and `windowCount` counts the windows whose
message pump is running (appended by a creation, not yet invalidated by a
pump exit). -/
def WindowInv (info : WindowInfoT) : Prop :=
  (info.windows.map WindowData.id).Nodup ∧
  (∀ w ∈ info.windows, 0 < w.id ∧ w.id ≤ info.windowsOpened) ∧
  info.windowCount =
    ((info.windows.filter (fun w => w.isValid)).length : Int) ∧
  0 ≤ info.windowsOpened

/-- Every reachable framework state satisfies the lifetime invariant. -/
lemma reachable_windowInv {info : WindowInfoT} (h : Reachable info) :
    WindowInv info := by
  induction h with
  | init => exact ⟨by simp [initialInfo], by simp [initialInfo],
      by simp [initialInfo], by simp [initialInfo]⟩
  | initialise info _ ih => exact ih
  | setError info c _ ih => exact ih
  | stopRunning info _ ih => exact ih
  | create info nm w h x y hw _ ih =>
    obtain ⟨hnd, hbnd, hcnt, hnn⟩ := ih
    refine ⟨?_, ?_, ?_, by simp [applyCreate]; omega⟩
    · simp only [applyCreate, List.map_append, List.map_cons, List.map_nil]
      rw [List.nodup_append]
      refine ⟨hnd, List.nodup_singleton _, ?_⟩
      intro a ha hb
      simp only [List.mem_singleton] at hb
      obtain ⟨v, hv, hva⟩ := List.mem_map.mp ha
      have := (hbnd v hv).2
      omega
    · intro v hv
      simp only [applyCreate, List.mem_append, List.mem_singleton] at hv
      rcases hv with hv | hv
      · have := hbnd v hv
        simp only [applyCreate]
        omega
      · subst hv
        simp only [applyCreate]
        omega
    · have hlen : ((applyCreate info nm w h x y hw).windows.filter
          (fun v => v.isValid)).length =
          (info.windows.filter (fun v => v.isValid)).length + 1 := by
        simp [applyCreate, List.filter_append, List.filter_cons]
      have hwc : (applyCreate info nm w h x y hw).windowCount =
          info.windowCount + 1 := rfl
      rw [hwc, hlen, hcnt]
      push_cast
      ring
  | pumpExit info l₁ l₂ w _ hsplit hvalid ih =>
    obtain ⟨hnd, hbnd, hcnt, hnn⟩ := ih
    have hids : ((applyPumpExit info l₁ l₂ w).windows.map WindowData.id) =
        info.windows.map WindowData.id := by
      simp [applyPumpExit, hsplit]
    refine ⟨?_, ?_, ?_, by simpa [applyPumpExit] using hnn⟩
    · rw [hids]; exact hnd
    · intro v hv
      simp only [applyPumpExit, List.mem_append, List.mem_cons] at hv
      have hopened : (applyPumpExit info l₁ l₂ w).windowsOpened =
          info.windowsOpened := rfl
      rw [hopened]
      rcases hv with hv | hv | hv
      · exact hbnd v (by rw [hsplit]; simp [hv])
      · subst hv
        have := hbnd w (by rw [hsplit]; simp)
        simpa using this
      · exact hbnd v (by rw [hsplit]; simp [hv])
    · have hlen : ((applyPumpExit info l₁ l₂ w).windows.filter
          (fun v => v.isValid)).length =
          (l₁.filter (fun v => v.isValid)).length +
            (l₂.filter (fun v => v.isValid)).length := by
        simp [applyPumpExit, List.filter_append, List.filter_cons]
      have hold : (info.windows.filter (fun v => v.isValid)).length =
          (l₁.filter (fun v => v.isValid)).length + 1 +
            (l₂.filter (fun v => v.isValid)).length := by
        rw [hsplit]
        simp [List.filter_append, List.filter_cons, hvalid]
        omega
      have hwc : (applyPumpExit info l₁ l₂ w).windowCount =
          info.windowCount - 1 := rfl
      rw [hwc, hcnt, hold, hlen]
      push_cast
      ring

/-- C2: every reachable `WindowInfo` state has `GetWindowCount` equal to
the number of windows created and not yet destroyed (the valid windows in
the list); a successful creation raises it by exactly one and a
message-pump exit lowers it by exactly one. -/
theorem windowCount_correct (info : WindowInfoT) (nm : String)
    (w h x y : Int) (hw : HWND) (l₁ l₂ : List WindowData)
    (wd : WindowData) :
    (Reachable info →
      GetWindowCount info =
        ((info.windows.filter (fun v => v.isValid)).length : Int)) ∧
    GetWindowCount (applyCreate info nm w h x y hw) =
      GetWindowCount info + 1 ∧
    GetWindowCount (applyPumpExit info l₁ l₂ wd) =
      GetWindowCount info - 1 := by
  exact ⟨fun hr => (reachable_windowInv hr).2.2.1, rfl, rfl⟩

/-- Witness for C2: in the reachable state `sampleInfo` (one window
created), `GetWindowCount` is the number of valid windows in the list. -/
theorem windowCount_correct_witness :
    GetWindowCount sampleInfo =
      ((sampleInfo.windows.filter (fun v => v.isValid)).length : Int) := by
  have h1 := Reachable.initialise _ Reachable.init
  have h2 := Reachable.create _ "w" 10 20 0 0 5 h1
  have hr : Reachable sampleInfo := by
    have heq : applyCreate { initialInfo with isInitialised := true }
        "w" 10 20 0 0 5 = sampleInfo := by
      simp [applyCreate, initialInfo, sampleInfo, sampleWindow]
    rwa [heq] at h2
  exact (windowCount_correct sampleInfo "w" 10 20 0 0 5 [] []
    sampleWindow).1 hr

/-- C9: in every reachable state the window ids are positive and pairwise
distinct, and a successful creation assigns the new window the id
`windowsOpened` taken after its increment. -/
theorem windowIds_distinct (info : WindowInfoT) (hr : Reachable info) :
    (∀ w ∈ info.windows, 0 < w.id) ∧
    (info.windows.map WindowData.id).Nodup ∧
    (∀ nm w h x y hw,
      ∃ newW, (applyCreate info nm w h x y hw).windows =
          info.windows ++ [newW] ∧
        newW.id = (applyCreate info nm w h x y hw).windowsOpened ∧
        (applyCreate info nm w h x y hw).windowsOpened =
          info.windowsOpened + 1) := by
  obtain ⟨hnd, hbnd, _, _⟩ := reachable_windowInv hr
  exact ⟨fun w hw => (hbnd w hw).1, hnd,
    fun nm w h x y hw => ⟨_, rfl, rfl, rfl⟩⟩

/-- Witness for C9: after two creations the two windows carry the
distinct positive ids 1 and 2. -/
theorem windowIds_distinct_witness :
    (∀ w ∈ (applyCreate (applyCreate
        { initialInfo with isInitialised := true } "a" 1 1 0 0 3)
        "b" 1 1 0 0 4).windows, 0 < w.id) ∧
    ((applyCreate (applyCreate
        { initialInfo with isInitialised := true } "a" 1 1 0 0 3)
        "b" 1 1 0 0 4).windows.map WindowData.id).Nodup := by
  have hr : Reachable (applyCreate (applyCreate
      { initialInfo with isInitialised := true } "a" 1 1 0 0 3)
      "b" 1 1 0 0 4) :=
    Reachable.create _ "b" 1 1 0 0 4
      (Reachable.create _ "a" 1 1 0 0 3
        (Reachable.initialise _ Reachable.init))
  have h := windowIds_distinct _ hr
  exact ⟨h.1, h.2.1⟩

/-! ### C3: message routing in the window procedure -/

/-- Win32 message code `WM_CLOSE` (winuser.h). -/
def WM_CLOSE : Nat := 0x10

/-- Win32 message code `WM_DESTROY` (winuser.h). -/
def WM_DESTROY : Nat := 0x2

/-- What a `in::WindowProc` call returns: a concrete value, or the result
of delegating to `DefWindowProc`. -/
inductive ProcReturn where
  | ret (v : Int)
  | defWindowProc
  deriving Repr, DecidableEq

/-- The observable effect of one `in::WindowProc` call: whether
`DestroyWindow` was invoked on the window and what is returned. -/
structure ProcEffect where
  destroyWindowCalled : Bool
  result : ProcReturn
  deriving Repr, DecidableEq

/-- `tsd::Running` (Framework.cpp lines 291-294): returns
`WindowInfo.isRunning`. -/
def Running (info : WindowInfoT) : Bool := info.isRunning

/-- `in::WindowProc` (Framework.cpp lines 104-124): on `WM_CLOSE` call
`DestroyWindow(hWnd)` and fall through to `DefWindowProc`; on
`WM_DESTROY`, if `tsd::GetWindowCount() == 1` clear
`WindowInfo.isRunning` and return 0, otherwise fall through to
`DefWindowProc`; on any other message go to `DefWindowProc`.  The second
component is the `WindowInfo` state after the call. -/
def WindowProc (info : WindowInfoT) (uMsg : Nat) :
    ProcEffect × WindowInfoT :=
  if uMsg = WM_CLOSE then
    ({ destroyWindowCalled := true, result := .defWindowProc }, info)
  else if uMsg = WM_DESTROY then
    if GetWindowCount info = 1 then
      ({ destroyWindowCalled := false, result := .ret 0 },
       { info with isRunning := false })
    else
      ({ destroyWindowCalled := false, result := .defWindowProc }, info)
  else
    ({ destroyWindowCalled := false, result := .defWindowProc }, info)

/-- C3: `WM_CLOSE` causes a `DestroyWindow` call; `WM_DESTROY` with
exactly one window open clears the running flag and returns 0;
`WM_DESTROY` with any other window count, and every other message, is
delegated to `DefWindowProc` and leaves the state unchanged. -/
theorem windowProc_routing (info : WindowInfoT) (uMsg : Nat) :
    (WindowProc info WM_CLOSE).1.destroyWindowCalled = true ∧
    (GetWindowCount info = 1 →
      (WindowProc info WM_DESTROY).1.result = .ret 0 ∧
      Running (WindowProc info WM_DESTROY).2 = false) ∧
    (GetWindowCount info ≠ 1 →
      (WindowProc info WM_DESTROY).1.result = .defWindowProc ∧
      (WindowProc info WM_DESTROY).2 = info) ∧
    (uMsg ≠ WM_CLOSE → uMsg ≠ WM_DESTROY →
      (WindowProc info uMsg).1.result = .defWindowProc ∧
      (WindowProc info uMsg).1.destroyWindowCalled = false ∧
      (WindowProc info uMsg).2 = info) := by
  refine ⟨by simp [WindowProc], ?_, ?_, ?_⟩
  · intro h1
    simp [WindowProc, WM_CLOSE, WM_DESTROY, h1, Running]
  · intro h1
    simp [WindowProc, WM_CLOSE, WM_DESTROY, h1]
  · intro h1 h2
    simp [WindowProc, h1, h2]

/-- Witness for C3 at concrete inputs: window counts 1 and 0 and the
unrelated message code 100. -/
theorem windowProc_routing_witness :
    ((WindowProc sampleInfo WM_DESTROY).1.result = .ret 0 ∧
      Running (WindowProc sampleInfo WM_DESTROY).2 = false) ∧
    ((WindowProc initialInfo WM_DESTROY).1.result = .defWindowProc ∧
      (WindowProc initialInfo WM_DESTROY).2 = initialInfo) ∧
    ((WindowProc sampleInfo 100).1.result = .defWindowProc ∧
      (WindowProc sampleInfo 100).1.destroyWindowCalled = false ∧
      (WindowProc sampleInfo 100).2 = sampleInfo) := by
  refine ⟨(windowProc_routing sampleInfo 100).2.1 (by decide),
    (windowProc_routing initialInfo 100).2.2.1 (by decide),
    (windowProc_routing sampleInfo 100).2.2.2 (by decide) (by decide)⟩

/-! ### C8: argument validation of tsd::CreateWindow -/

/-- `in::SetLastError` (Framework.cpp lines 60-63): store the error code
in `WindowInfo.lastErrorCode`. -/
def SetLastError (info : WindowInfoT) (code : Int) : WindowInfoT :=
  { info with lastErrorCode := code }

/-- Result of the validation prefix of `tsd::CreateWindow`: `ret` is
`some r` when the function returns early with value `r` and `none` when
it proceeds; `info` is the resulting `WindowInfo` state; `threadSpawned`
records whether a `std::thread` running
`in::WindowData::MessageHandler` was started. -/
structure CWCheck where
  ret : Option Int
  info : WindowInfoT
  threadSpawned : Bool
  deriving Repr, DecidableEq

/-- The validation prefix of `tsd::CreateWindow` (Framework.cpp lines
208-215): if the framework is not initialised, set error 2 and return 0;
if `name` is null, set error 3 and return 0; if `height <= 0` or
`width <= 0`, set error 3 and return 0; otherwise spawn the message
handler thread (whose effect is `applyCreate`). -/
def CreateWindowChecked (info : WindowInfoT) (name : Option String)
    (width height : Int) : CWCheck :=
  if info.isInitialised = false then
    ⟨some 0, SetLastError info 2, false⟩
  else if name = none then
    ⟨some 0, SetLastError info 3, false⟩
  else if height ≤ 0 ∨ width ≤ 0 then
    ⟨some 0, SetLastError info 3, false⟩
  else
    ⟨none, info, true⟩

/-- C8: `tsd::CreateWindow` fails with error code 2 when the framework is
uninitialised and with error code 3 when the name is null or an extent is
nonpositive; in every failure case it returns 0, spawns no thread, and
leaves the window list and both window counters unchanged. -/
theorem createWindow_validation (info : WindowInfoT) (name : Option String)
    (width height : Int) :
    (info.isInitialised = false →
      CreateWindowChecked info name width height =
        ⟨some 0, SetLastError info 2, false⟩) ∧
    (info.isInitialised = true → name = none →
      CreateWindowChecked info name width height =
        ⟨some 0, SetLastError info 3, false⟩) ∧
    (info.isInitialised = true → name ≠ none →
      (width ≤ 0 ∨ height ≤ 0) →
      CreateWindowChecked info name width height =
        ⟨some 0, SetLastError info 3, false⟩) ∧
    (∀ r st ts, CreateWindowChecked info name width height =
        ⟨some r, st, ts⟩ →
      r = 0 ∧ ts = false ∧ st.windows = info.windows ∧
      st.windowCount = info.windowCount ∧
      st.windowsOpened = info.windowsOpened) := by
  refine ⟨?_, ?_, ?_, ?_⟩
  · intro h
    simp [CreateWindowChecked, h]
  · intro h1 h2
    simp [CreateWindowChecked, h1, h2]
  · intro h1 h2 h3
    have : height ≤ 0 ∨ width ≤ 0 := h3.symm
    simp [CreateWindowChecked, h1, h2, this]
  · intro r st ts heq
    simp only [CreateWindowChecked] at heq
    split at heq
    · cases heq
      exact ⟨rfl, rfl, rfl, rfl, rfl⟩
    · split at heq
      · cases heq
        exact ⟨rfl, rfl, rfl, rfl, rfl⟩
      · split at heq
        · cases heq
          exact ⟨rfl, rfl, rfl, rfl, rfl⟩
        · cases heq

/-- Witness for C8 at concrete inputs: an uninitialised state, a null
name, and a nonpositive width. -/
theorem createWindow_validation_witness :
    CreateWindowChecked initialInfo (some "w") 10 20 =
      ⟨some 0, SetLastError initialInfo 2, false⟩ ∧
    CreateWindowChecked sampleInfo none 10 20 =
      ⟨some 0, SetLastError sampleInfo 3, false⟩ ∧
    CreateWindowChecked sampleInfo (some "w") (-1) 20 =
      ⟨some 0, SetLastError sampleInfo 3, false⟩ := by
  refine ⟨(createWindow_validation initialInfo (some "w") 10 20).1
      (by decide),
    (createWindow_validation sampleInfo none 10 20).2.1 (by decide) rfl,
    (createWindow_validation sampleInfo (some "w") (-1) 20).2.2.1
      (by decide) (by decide) (by decide)⟩

/-! ### C4: the tsd::MessageBox translation layer -/

/-- Win32 `MB_OK` (winuser.h). -/
def MB_OK : Nat := 0x0
/-- Win32 `MB_OKCANCEL` (winuser.h). -/
def MB_OKCANCEL : Nat := 0x1
/-- Win32 `MB_ABORTRETRYIGNORE` (winuser.h). -/
def MB_ABORTRETRYIGNORE : Nat := 0x2
/-- Win32 `MB_YESNOCANCEL` (winuser.h). -/
def MB_YESNOCANCEL : Nat := 0x3
/-- Win32 `MB_YESNO` (winuser.h). -/
def MB_YESNO : Nat := 0x4
/-- Win32 `MB_RETRYCANCEL` (winuser.h). -/
def MB_RETRYCANCEL : Nat := 0x5
/-- Win32 `MB_CANCELTRYCONTINUE` (winuser.h). -/
def MB_CANCELTRYCONTINUE : Nat := 0x6
/-- Win32 `MB_ICONERROR` (winuser.h). -/
def MB_ICONERROR : Nat := 0x10
/-- Win32 `MB_ICONQUESTION` (winuser.h). -/
def MB_ICONQUESTION : Nat := 0x20
/-- Win32 `MB_ICONWARNING` (winuser.h). -/
def MB_ICONWARNING : Nat := 0x30
/-- Win32 `MB_ICONINFORMATION` (winuser.h). -/
def MB_ICONINFORMATION : Nat := 0x40
/-- Win32 `MB_TASKMODAL` (winuser.h). -/
def MB_TASKMODAL : Nat := 0x2000

/-- The `MBF` flag bits that `tsd::MessageBox` tests (Framework.cpp lines
312-338).  The `MBF` enum itself lives in the header `Framework.hpp`,
which is not in the repository; since the code tests each flag
individually with a bitwise AND, the input is modelled as one boolean per
flag. -/
structure MBFFlags where
  taskmodal : Bool
  iconWarning : Bool
  iconError : Bool
  iconInfo : Bool
  iconQuestion : Bool
  buttonOk : Bool
  buttonOkCancel : Bool
  buttonYesNo : Bool
  buttonRetryCancel : Bool
  buttonYesNoCancel : Bool
  buttonAbortRetryIgnore : Bool
  buttonCancelRetryContinue : Bool
  deriving Repr, DecidableEq

/-- The `(flag, MB_* constant)` pairs in exactly the order the if-chain of
`tsd::MessageBox` tests them (Framework.cpp lines 312-338). -/
def mbfTable (f : MBFFlags) : List (Bool × Nat) :=
  [(f.taskmodal, MB_TASKMODAL),
   (f.iconWarning, MB_ICONWARNING),
   (f.iconError, MB_ICONERROR),
   (f.iconInfo, MB_ICONINFORMATION),
   (f.iconQuestion, MB_ICONQUESTION),
   (f.buttonOk, MB_OK),
   (f.buttonOkCancel, MB_OKCANCEL),
   (f.buttonYesNo, MB_YESNO),
   (f.buttonRetryCancel, MB_RETRYCANCEL),
   (f.buttonYesNoCancel, MB_YESNOCANCEL),
   (f.buttonAbortRetryIgnore, MB_ABORTRETRYIGNORE),
   (f.buttonCancelRetryContinue, MB_CANCELTRYCONTINUE)]

/-- Sequential accumulation `rawFlags = rawFlags | c` for each set flag,
as in the if-chain of `tsd::MessageBox`. -/
def orChain : List (Bool × Nat) → Nat → Nat
  | [], acc => acc
  | (b, c) :: t, acc => orChain t (if b then acc ||| c else acc)

/-- The `rawFlags` value that `tsd::MessageBox` passes to the Win32
`MessageBoxA` call (Framework.cpp lines 308-347): starting from 0, OR in
the `MB_*` constant of each set `MBF` flag in program order. -/
def rawFlagsOf (f : MBFFlags) : Nat := orChain (mbfTable f) 0

/-- The claim's description of the raw flags: the OR of the `MB_*`
constants of exactly the flags that are set in the input. -/
def specRawFlags (f : MBFFlags) : Nat :=
  ((mbfTable f).filter (fun p => p.1)).foldr (fun p acc => p.2 ||| acc) 0

lemma orChain_eq (l : List (Bool × Nat)) (acc : Nat) :
    orChain l acc =
      acc ||| (l.filter (fun p => p.1)).foldr (fun p a => p.2 ||| a) 0 := by
  induction l generalizing acc with
  | nil => simp [orChain]
  | cons p t ih =>
    obtain ⟨b, c⟩ := p
    cases b
    · simp only [orChain, Bool.false_eq_true, if_false, List.filter_cons,
        decide_eq_true_eq]
      simpa using ih acc
    · simp only [orChain, if_true, List.filter_cons, decide_eq_true_eq]
      rw [ih]
      simp [Nat.lor_assoc]

/-- The `MBR` result enum returned by `tsd::MessageBox`; declared in the
missing header `Framework.hpp` and fully determined here by the switch of
Framework.cpp lines 349-361. -/
inductive MBR where
  | ABORT
  | CANCEL
  | CONTINUE
  | IGNORE
  | NO
  | OK
  | RETRY
  | TRYAGAIN
  | YES
  deriving Repr, DecidableEq

/-- Win32 dialog result `IDOK` (winuser.h). -/
def IDOK : Int := 1
/-- Win32 dialog result `IDCANCEL` (winuser.h). -/
def IDCANCEL : Int := 2
/-- Win32 dialog result `IDABORT` (winuser.h). -/
def IDABORT : Int := 3
/-- Win32 dialog result `IDRETRY` (winuser.h). -/
def IDRETRY : Int := 4
/-- Win32 dialog result `IDIGNORE` (winuser.h). -/
def IDIGNORE : Int := 5
/-- Win32 dialog result `IDYES` (winuser.h). -/
def IDYES : Int := 6
/-- Win32 dialog result `IDNO` (winuser.h). -/
def IDNO : Int := 7
/-- Win32 dialog result `IDTRYAGAIN` (winuser.h). -/
def IDTRYAGAIN : Int := 10
/-- Win32 dialog result `IDCONTINUE` (winuser.h). -/
def IDCONTINUE : Int := 11

/-- The switch over the `MessageBoxA` result in `tsd::MessageBox`
(Framework.cpp lines 349-361): the nine `ID*` values map to their `MBR`
counterparts and anything else falls through to `MBR::CANCEL`. -/
def mbResultOf (result : Int) : MBR :=
  if result = IDABORT then .ABORT
  else if result = IDCANCEL then .CANCEL
  else if result = IDCONTINUE then .CONTINUE
  else if result = IDIGNORE then .IGNORE
  else if result = IDNO then .NO
  else if result = IDOK then .OK
  else if result = IDRETRY then .RETRY
  else if result = IDTRYAGAIN then .TRYAGAIN
  else if result = IDYES then .YES
  else .CANCEL

/-- The owner handle `tsd::MessageBox` passes to `MessageBoxA`
(Framework.cpp lines 306 and 347): the looked-up window's `hWnd` if the
owner id identifies a valid window, the null handle otherwise. -/
def messageBoxOwnerHandle (info : WindowInfoT) (owner : Int) : HWND :=
  match (GetWindowDataId info owner).1 with
  | some d => d.hWnd
  | none => 0

/-- C4: the raw flags passed to the OS are the OR of exactly the `MB_*`
constants of the set `MBF` flags; the nine Win32 button results map to
their `MBR` counterparts and every other result yields `MBR::CANCEL`; an
owner id with no valid window gives a null owner handle. -/
theorem messageBox_translation (f : MBFFlags) (r : Int)
    (info : WindowInfoT) (owner : Int) :
    rawFlagsOf f = specRawFlags f ∧
    mbResultOf IDABORT = .ABORT ∧
    mbResultOf IDCANCEL = .CANCEL ∧
    mbResultOf IDCONTINUE = .CONTINUE ∧
    mbResultOf IDIGNORE = .IGNORE ∧
    mbResultOf IDNO = .NO ∧
    mbResultOf IDOK = .OK ∧
    mbResultOf IDRETRY = .RETRY ∧
    mbResultOf IDTRYAGAIN = .TRYAGAIN ∧
    mbResultOf IDYES = .YES ∧
    (r ∉ ([IDABORT, IDCANCEL, IDCONTINUE, IDIGNORE, IDNO, IDOK, IDRETRY,
        IDTRYAGAIN, IDYES] : List Int) → mbResultOf r = .CANCEL) ∧
    ((GetWindowDataId info owner).1 = none →
      messageBoxOwnerHandle info owner = 0) := by
  refine ⟨?_, by decide, by decide, by decide, by decide, by decide,
    by decide, by decide, by decide, by decide, ?_, ?_⟩
  · rw [rawFlagsOf, orChain_eq, specRawFlags]
    simp
  · intro hr
    simp only [List.mem_cons, List.not_mem_nil, or_false, not_or] at hr
    obtain ⟨h1, h2, h3, h4, h5, h6, h7, h8, h9⟩ := hr
    simp [mbResultOf, h1, h2, h3, h4, h5, h6, h7, h8, h9]
  · intro h
    simp [messageBoxOwnerHandle, h]

/-- Witness for C4 at concrete inputs: the unmapped dialog result 42 and
the owner id 99 which no valid window of `sampleInfo` carries. -/
theorem messageBox_translation_witness :
    mbResultOf 42 = .CANCEL ∧ messageBoxOwnerHandle sampleInfo 99 = 0 := by
  have h := messageBox_translation
    ⟨true, false, true, false, false, true, false, false, false, false,
      false, false⟩ 42 sampleInfo 99
  exact ⟨h.2.2.2.2.2.2.2.2.2.2.1 (by decide),
    h.2.2.2.2.2.2.2.2.2.2.2 (by decide)⟩

/-! ### C5: the fatal Win32 error translators -/

/-- `p` is an initial segment of `s` (character lists). -/
def listPre : List Char → List Char → Bool
  | [], _ => true
  | _ :: _, [] => false
  | a :: as, b :: bs => a == b && listPre as bs

/-- `p` occurs contiguously somewhere in `s` (character lists). -/
def listOcc (p : List Char) : List Char → Bool
  | [] => p.isEmpty
  | c :: t => listPre p (c :: t) || listOcc p t

/-- `sub` occurs contiguously somewhere in `s`. -/
def strOccurs (sub s : String) : Bool := listOcc sub.data s.data

lemma listPre_append_ext (p s t : List Char) (h : listPre p s = true) :
    listPre p (s ++ t) = true := by
  induction p generalizing s with
  | nil => simp [listPre]
  | cons a as ih =>
    cases s with
    | nil => simp [listPre] at h
    | cons b bs =>
      simp only [listPre, Bool.and_eq_true] at h ⊢
      exact ⟨h.1, ih bs h.2⟩

lemma listPre_self_ext (p t : List Char) : listPre p (p ++ t) = true := by
  induction p with
  | nil => simp [listPre]
  | cons a as ih => simp [listPre, ih]

lemma listOcc_nil_sub (l : List Char) : listOcc [] l = true := by
  cases l with
  | nil => rfl
  | cons c t => simp [listOcc, listPre]

lemma listOcc_of_pre (p s : List Char) (h : listPre p s = true) :
    listOcc p s = true := by
  cases s with
  | nil =>
    cases p with
    | nil => rfl
    | cons a as => simp [listPre] at h
  | cons c t => simp [listOcc, h]

lemma listOcc_prepend (p s a : List Char) (h : listOcc p s = true) :
    listOcc p (a ++ s) = true := by
  induction a with
  | nil => simpa using h
  | cons c cs ih => simp [listOcc, ih]

lemma listOcc_extend (p s t : List Char) (h : listOcc p s = true) :
    listOcc p (s ++ t) = true := by
  induction s with
  | nil =>
    simp only [listOcc, List.isEmpty_iff] at h
    subst h
    exact listOcc_nil_sub t
  | cons c cs ih =>
    simp only [listOcc, Bool.or_eq_true] at h
    rcases h with h | h
    · simp only [List.cons_append, listOcc, Bool.or_eq_true]
      exact Or.inl (listPre_append_ext p (c :: cs) t h)
    · simp [listOcc, ih h]

lemma strOccurs_self (s : String) : strOccurs s s = true := by
  unfold strOccurs
  have := listPre_self_ext s.data []
  rw [List.append_nil] at this
  exact listOcc_of_pre _ _ this

lemma strOccurs_append_right (sub s a : String)
    (h : strOccurs sub s = true) : strOccurs sub (a ++ s) = true := by
  unfold strOccurs at *
  rw [String.data_append]
  exact listOcc_prepend _ _ _ h

lemma strOccurs_append_left (sub s b : String)
    (h : strOccurs sub s = true) : strOccurs sub (s ++ b) = true := by
  unfold strOccurs at *
  rw [String.data_append]
  exact listOcc_extend _ _ _ h

/-- The dialog text of `in::CreateWin32DebugError` (Framework.cpp lines
20-30): with a `FormatMessage` result the text carries the error code,
the source line and the message; with none (null `eMsg`) it is a fixed
fallback text mentioning neither. -/
def debugErrorDialogText (e line : Int) (eMsg : Option String) : String :=
  match eMsg with
  | some m =>
      "A Win32 API call resulted in a fatal error " ++ toString e ++
      " at line " ++ toString line ++
      " in the source of the framework.\n\n" ++ m ++
      "\nThis is an internal error likely caused by the framework itself, the application must quit now.\n"
  | none =>
      "An Error occoured which even the error handler could not handle. This is usually caused by the error message being to long\n\nI guess I fucked up...\n"

/-- The observable effect of one of the fatal error translators: the
modal dialog it shows, the log file it writes (name and lines), and
whether it ends by throwing. -/
structure Win32ErrorEffect where
  dialogTitle : String
  dialogText : String
  logFile : Option (String × List String)
  throws : Bool
  deriving Repr, DecidableEq

/-- `in::CreateWin32DebugError` (Framework.cpp lines 4-37), as a function
of the `GetLastError()` value `e`, the source line, and the
`FormatMessage` output (`none` models a null `eMsg` buffer): show the
dialog and throw `std::exception`. -/
def CreateWin32DebugError (e line : Int) (eMsg : Option String) :
    Win32ErrorEffect :=
  { dialogTitle := "Internal Error!",
    dialogText := debugErrorDialogText e line eMsg,
    logFile := none,
    throws := true }

/-- `in::CreateWin32ReleaseError` (Framework.cpp lines 39-58), as a
function of the `GetLastError()` value `e`, the source line and the
`__TIMESTAMP__` string: write the two log lines to `Last_Log.txt`, show
the dialog, and throw `std::exception`. -/
def CreateWin32ReleaseError (e line : Int) (timestamp : String) :
    Win32ErrorEffect :=
  { dialogTitle := "Critical Error!",
    dialogText := "A critical error occoured, the application must quit now!\n\nFor more information check the logfiles in the application directory\n",
    logFile := some ("Last_Log.txt",
      ["[ " ++ timestamp ++ " ]: Unhandled Win32 error! " ++ toString e ++
         " at " ++ toString line,
       "[ " ++ timestamp ++ " ]: Fatal Error, application must abort!"]),
    throws := true }

/-- Counterexample to C5 as stated: at error code 5, line 7, when
`FormatMessage` yields no message, the debug dialog contains neither the
numeric error code nor the source line. -/
theorem createWin32DebugError_counterexample :
    strOccurs (toString (5 : Int))
        (CreateWin32DebugError 5 7 none).dialogText = false ∧
    strOccurs (toString (7 : Int))
        (CreateWin32DebugError 5 7 none).dialogText = false := by
  constructor <;> decide

/-- C5 (amended): when `FormatMessage` yields a message, the debug dialog
contains the numeric error code, the source line and the message text,
and the function throws; when it yields none, the dialog is the fixed
fallback text and the function still throws; the release translator
writes the numeric code and line to `Last_Log.txt`, shows a dialog, and
throws. -/
theorem createWin32Error_reporting (e line : Int) (m timestamp : String) :
    strOccurs (toString e)
      (CreateWin32DebugError e line (some m)).dialogText = true ∧
    strOccurs (toString line)
      (CreateWin32DebugError e line (some m)).dialogText = true ∧
    strOccurs m (CreateWin32DebugError e line (some m)).dialogText = true ∧
    (CreateWin32DebugError e line (some m)).throws = true ∧
    (CreateWin32DebugError e line none).dialogText =
      "An Error occoured which even the error handler could not handle. This is usually caused by the error message being to long\n\nI guess I fucked up...\n" ∧
    (CreateWin32DebugError e line none).throws = true ∧
    (CreateWin32ReleaseError e line timestamp).logFile.map Prod.fst =
      some "Last_Log.txt" ∧
    (∃ entry ∈ ((CreateWin32ReleaseError e line timestamp).logFile.map
        Prod.snd).getD [],
      strOccurs (toString e) entry = true ∧
      strOccurs (toString line) entry = true) ∧
    (CreateWin32ReleaseError e line timestamp).dialogText ≠ "" ∧
    (CreateWin32ReleaseError e line timestamp).throws = true := by
  refine ⟨?_, ?_, ?_, rfl, rfl, rfl, rfl, ?_, by simp [CreateWin32ReleaseError], rfl⟩
  · show strOccurs (toString e)
      ("A Win32 API call resulted in a fatal error " ++ toString e ++
        " at line " ++ toString line ++
        " in the source of the framework.\n\n" ++ m ++
        "\nThis is an internal error likely caused by the framework itself, the application must quit now.\n") = true
    apply strOccurs_append_left
    apply strOccurs_append_left
    apply strOccurs_append_left
    apply strOccurs_append_left
    apply strOccurs_append_left
    exact strOccurs_append_right _ _ _ (strOccurs_self _)
  · show strOccurs (toString line)
      ("A Win32 API call resulted in a fatal error " ++ toString e ++
        " at line " ++ toString line ++
        " in the source of the framework.\n\n" ++ m ++
        "\nThis is an internal error likely caused by the framework itself, the application must quit now.\n") = true
    apply strOccurs_append_left
    apply strOccurs_append_left
    apply strOccurs_append_left
    exact strOccurs_append_right _ _ _ (strOccurs_self _)
  · show strOccurs m
      ("A Win32 API call resulted in a fatal error " ++ toString e ++
        " at line " ++ toString line ++
        " in the source of the framework.\n\n" ++ m ++
        "\nThis is an internal error likely caused by the framework itself, the application must quit now.\n") = true
    apply strOccurs_append_left
    exact strOccurs_append_right _ _ _ (strOccurs_self _)
  · refine ⟨"[ " ++ timestamp ++ " ]: Unhandled Win32 error! " ++
      toString e ++ " at " ++ toString line, by simp [CreateWin32ReleaseError], ?_, ?_⟩
    · apply strOccurs_append_left
      apply strOccurs_append_left
      exact strOccurs_append_right _ _ _ (strOccurs_self _)
    · exact strOccurs_append_right _ _ _ (strOccurs_self _)

/-- Witness for C5 (amended) at error code 5, line 7, message "msg" and a
concrete timestamp. -/
theorem createWin32Error_reporting_witness :
    strOccurs (toString (5 : Int))
      (CreateWin32DebugError 5 7 (some "msg")).dialogText = true ∧
    strOccurs "msg" (CreateWin32DebugError 5 7 (some "msg")).dialogText
      = true := by
  have h := createWin32Error_reporting 5 7 "msg" "Jan 01 2024"
  exact ⟨h.1, h.2.2.1⟩

/-! ### C6: the automatic error translators -/

/-- `tsd::GetLastError` (Framework.cpp lines 256-259): returns
`WindowInfo.lastErrorCode`. -/
def GetLastErrorT (info : WindowInfoT) : Int := info.lastErrorCode

/-- `tsd::GetErrorInformation` (Framework.cpp lines 261-264): look the
code up in the `in::errors` table (declared in the missing header;
modelled as an association list) and fall back to "Invalid error Code!"
when the code is not in the table. -/
def GetErrorInformation (errors : List (Int × String)) (code : Int) :
    String :=
  match errors.find? (fun p => p.1 == code) with
  | some p => p.2
  | none => "Invalid error Code!"

/-- The observable effect of one of the automatic error translators: the
dialogs it shows (title, text) and whether it throws. -/
structure AutoErrorEffect where
  dialogs : List (String × String)
  throws : Bool
  deriving Repr, DecidableEq

/-- `tsd::CreateAutoDebugError` (Framework.cpp lines 235-249): show a
dialog carrying `tsd::GetLastError()`, the line, and the
`tsd::GetErrorInformation` text, and throw `std::exception` when `quit`
is set. -/
def CreateAutoDebugError (info : WindowInfoT)
    (errors : List (Int × String)) (line : Int) (quit : Bool) :
    AutoErrorEffect :=
  { dialogs := [("Error!",
      "Error " ++ toString (GetLastErrorT info) ++
      " has occoured at line " ++ toString line ++ ".\n\n" ++
      GetErrorInformation errors (GetLastErrorT info) ++ "\n\n" ++
      (if quit then "The application must quit now." else ""))],
    throws := quit }

/-- `tsd::CreateAutoReleaseError` (Framework.cpp lines 251-254): the body
is empty (only the comment `// Heheheha`), so the function shows no
dialog, writes no log, and never throws. -/
def CreateAutoReleaseError (_line : Int) (_quit : Bool) : AutoErrorEffect :=
  { dialogs := [], throws := false }

/-- C6: the code contradicts the claim.  `tsd::CreateAutoReleaseError`
performs no error reporting whatsoever — at line 1 with `quit` set (and
at every other input) it shows no dialog and does not throw — while its
debug counterpart at the same input shows an error dialog carrying the
stored error code, the line, and the `GetErrorInformation` text, and
throws. -/
theorem createAutoReleaseError_noop :
    CreateAutoReleaseError 1 true = ⟨[], false⟩ ∧
    (∀ line quit, CreateAutoReleaseError line quit = ⟨[], false⟩) ∧
    (CreateAutoDebugError (SetLastError initialInfo 3) [] 1
      true).dialogs ≠ [] ∧
    (CreateAutoDebugError (SetLastError initialInfo 3) [] 1
      true).throws = true ∧
    strOccurs (toString (GetLastErrorT (SetLastError initialInfo 3)))
      ((CreateAutoDebugError (SetLastError initialInfo 3) [] 1
        true).dialogs.headI).2 = true := by
  refine ⟨rfl, fun _ _ => rfl, by simp [CreateAutoDebugError], rfl, ?_⟩
  decide

/-! ### C10: the window attribute accessors -/

/-- `tsd::GetWindowName` (Framework.cpp lines 266-269): return the `name`
field of `in::GetWindowData(id)`; the C++ dereferences the pointer
unconditionally, so `none` models the null-pointer dereference of a
failed lookup. -/
def GetWindowName (info : WindowInfoT) (id : Int) : Option String :=
  ((GetWindowDataId info id).1).map (fun w => w.name)

/-- `tsd::GetWindowVisibility` (Framework.cpp lines 271-274): the
`isVisible` field of the unconditionally dereferenced lookup result. -/
def GetWindowVisibility (info : WindowInfoT) (id : Int) : Option Bool :=
  ((GetWindowDataId info id).1).map (fun w => w.isVisible)

/-- `tsd::GetWindowWidth` (Framework.cpp lines 276-279): the `width`
field of the unconditionally dereferenced lookup result. -/
def GetWindowWidth (info : WindowInfoT) (id : Int) : Option Int :=
  ((GetWindowDataId info id).1).map (fun w => w.width)

/-- `tsd::GetWindowHeight` (Framework.cpp lines 281-284): the `height`
field of the unconditionally dereferenced lookup result. -/
def GetWindowHeight (info : WindowInfoT) (id : Int) : Option Int :=
  ((GetWindowDataId info id).1).map (fun w => w.height)

/-- C10: when a valid window with the given id exists, the null branch of
the lookup is unreachable (the lookup yields `some`) and each accessor
returns the corresponding field of that window. -/
theorem windowAccessors_safe (info : WindowInfoT) (id : Int)
    (h : ∃ w ∈ info.windows, w.id = id ∧ w.isValid = true) :
    ∃ w, w ∈ info.windows ∧ w.id = id ∧ w.isValid = true ∧
      (GetWindowDataId info id).1 = some w ∧
      GetWindowName info id = some w.name ∧
      GetWindowVisibility info id = some w.isVisible ∧
      GetWindowWidth info id = some w.width ∧
      GetWindowHeight info id = some w.height := by
  obtain ⟨w, hw, hid, hval⟩ := h
  have hsome : (info.windows.find?
      (fun i => i.id == id && i.isValid)).isSome := by
    rw [List.find?_isSome]
    exact ⟨w, hw, by simp [hid, hval]⟩
  obtain ⟨v, hv⟩ := Option.isSome_iff_exists.mp hsome
  have hvm := List.mem_of_find?_eq_some hv
  have hvp := List.find?_some hv
  simp only [Bool.and_eq_true, beq_iff_eq] at hvp
  refine ⟨v, hvm, hvp.1, hvp.2, hv, ?_, ?_, ?_, ?_⟩ <;>
    simp [GetWindowName, GetWindowVisibility, GetWindowWidth,
      GetWindowHeight, GetWindowDataId, hv]

/-- Witness for C10: in `sampleInfo` the window with id 1 exists and every
accessor returns its field. -/
theorem windowAccessors_safe_witness :
    (∃ w ∈ sampleInfo.windows, w.id = 1 ∧ w.isValid = true) ∧
    ∃ w, w ∈ sampleInfo.windows ∧ w.id = 1 ∧ w.isValid = true ∧
      (GetWindowDataId sampleInfo 1).1 = some w ∧
      GetWindowName sampleInfo 1 = some w.name ∧
      GetWindowVisibility sampleInfo 1 = some w.isVisible ∧
      GetWindowWidth sampleInfo 1 = some w.width ∧
      GetWindowHeight sampleInfo 1 = some w.height := by
  have hpre : ∃ w ∈ sampleInfo.windows, w.id = 1 ∧ w.isValid = true :=
    ⟨sampleWindow, by decide, rfl, rfl⟩
  exact ⟨hpre, windowAccessors_safe sampleInfo 1 hpre⟩

/-! ### C7: the thread handshake of tsd::CreateWindow -/

/-- Program counter of the spawned `in::WindowData::MessageHandler`
thread: before `CreateWindowEx`; after window creation, counter updates
and id assignment (lines 67-84); after setting `windowIsFinished` under
the lock and notifying the condition variable (lines 87-90); after the
message pump exited (lines 93-101). -/
inductive HandlerPc where
  | start
  | created
  | signalled
  | pumpDone
  deriving Repr, DecidableEq

/-- Joint state of the calling thread and the spawned message-handler
thread during one `tsd::CreateWindow` call, from the point where the
validation prefix passed and the thread was spawned (line 215). -/
structure HandshakeState where
  hpc : HandlerPc
  mainReturned : Bool
  windowIsFinished : Bool
  windowsOpened : Int
  windowCount : Int
  assignedId : Int
  retVal : Int
  deriving Repr, DecidableEq

/-- Interleaved small-step semantics of the handshake.  The handler
thread creates the window, bumps the counters and assigns the id
(lines 67-84), then sets `windowIsFinished` and notifies (lines 87-90),
then eventually leaves the pump (lines 93-101).  The calling thread's
`cv.wait(lock, [] { return windowIsFinished; })` (line 226) lets it
continue only when `windowIsFinished` is true; it then pushes the window,
resets `windowIsFinished` and returns `wndData->id` (lines 228-232). -/
inductive HandshakeStep : HandshakeState → HandshakeState → Prop where
  | handlerCreate (s : HandshakeState) : s.hpc = .start →
      HandshakeStep s
        { s with
          hpc := .created,
          windowCount := s.windowCount + 1,
          windowsOpened := s.windowsOpened + 1,
          assignedId := s.windowsOpened + 1 }
  | handlerSignal (s : HandshakeState) : s.hpc = .created →
      HandshakeStep s
        { s with
          hpc := .signalled,
          windowIsFinished := true }
  | handlerPumpExit (s : HandshakeState) : s.hpc = .signalled →
      HandshakeStep s
        { s with
          hpc := .pumpDone,
          windowCount := s.windowCount - 1 }
  | mainReturn (s : HandshakeState) : s.mainReturned = false →
      s.windowIsFinished = true →
      HandshakeStep s
        { s with
          mainReturned := true,
          retVal := s.assignedId,
          windowIsFinished := false }

/-- State right after `tsd::CreateWindow` spawned the handler thread:
handler at its entry point, caller not yet returned, the finished flag
clear. -/
def initHandshake (opened count : Int) : HandshakeState :=
  { hpc := .start, mainReturned := false, windowIsFinished := false,
    windowsOpened := opened, windowCount := count, assignedId := 0,
    retVal := 0 }

/-- Handshake invariant: the finished flag is only up once the handler
has signalled; the caller has only returned once the handler has
signalled, and then its return value is the id the handler assigned,
which is the post-increment `windowsOpened`. -/
def HandshakeInv (s : HandshakeState) : Prop :=
  (s.windowIsFinished = true →
    s.hpc = .signalled ∨ s.hpc = .pumpDone) ∧
  (s.mainReturned = true →
    (s.hpc = .signalled ∨ s.hpc = .pumpDone) ∧
    s.retVal = s.assignedId) ∧
  (s.hpc ≠ .start → s.assignedId = s.windowsOpened)

lemma handshakeStep_inv {s s' : HandshakeState} (hstep : HandshakeStep s s')
    (hinv : HandshakeInv s) : HandshakeInv s' := by
  obtain ⟨hfin, hret, hid⟩ := hinv
  cases hstep with
  | handlerCreate hpc =>
    refine ⟨fun hf => ?_, fun hm => ?_, fun _ => rfl⟩
    · exact absurd (hfin hf) (by rw [hpc]; simp)
    · exact absurd ((hret hm).1) (by rw [hpc]; simp)
  | handlerSignal hpc =>
    refine ⟨fun _ => Or.inl rfl, fun hm => ?_, fun _ => ?_⟩
    · exact absurd ((hret hm).1) (by rw [hpc]; simp)
    · exact hid (by rw [hpc]; simp)
  | handlerPumpExit hpc =>
    exact ⟨fun _ => Or.inr rfl, fun hm => ⟨Or.inr rfl, (hret hm).2⟩,
      fun _ => hid (by rw [hpc]; simp)⟩
  | mainReturn hm hf =>
    refine ⟨fun h => absurd h (by simp), fun _ => ⟨hfin hf, rfl⟩,
      fun h => hid h⟩

lemma handshake_reachable_inv (opened count : Int) (s : HandshakeState)
    (h : Relation.ReflTransGen HandshakeStep
      (initHandshake opened count) s) : HandshakeInv s := by
  induction h with
  | refl =>
    exact ⟨by simp [initHandshake], by simp [initHandshake],
      by simp [initHandshake]⟩
  | tail _ hstep ih => exact handshakeStep_inv hstep ih

/-- C7: in every interleaving of the caller and the spawned
message-handler thread, if the caller has returned from
`tsd::CreateWindow` then the handler had already created the window and
signalled that creation is finished, and the caller's return value is the
id the handler assigned to the new window (the post-increment
`windowsOpened`). -/
theorem createWindow_handshake (opened count : Int) (s : HandshakeState)
    (h : Relation.ReflTransGen HandshakeStep
      (initHandshake opened count) s)
    (hret : s.mainReturned = true) :
    (s.hpc = .signalled ∨ s.hpc = .pumpDone) ∧
    s.retVal = s.assignedId ∧ s.assignedId = s.windowsOpened := by
  obtain ⟨_, hr, hid⟩ := handshake_reachable_inv opened count s h
  obtain ⟨hsig, hv⟩ := hr hret
  refine ⟨hsig, hv, hid ?_⟩
  rcases hsig with h | h <;> rw [h] <;> simp

/-- The state after the trace create → signal → return starting from
`initHandshake 0 0`. -/
def handshakeFinal : HandshakeState :=
  { hpc := .signalled, mainReturned := true, windowIsFinished := false,
    windowsOpened := 1, windowCount := 1, assignedId := 1, retVal := 1 }

/-- First intermediate state of the witness trace: handler created the
window and assigned id 1. -/
def handshakeMid1 : HandshakeState :=
  { hpc := .created, mainReturned := false, windowIsFinished := false,
    windowsOpened := 1, windowCount := 1, assignedId := 1, retVal := 0 }

/-- Second intermediate state of the witness trace: handler signalled
that window creation is finished. -/
def handshakeMid2 : HandshakeState :=
  { hpc := .signalled, mainReturned := false, windowIsFinished := true,
    windowsOpened := 1, windowCount := 1, assignedId := 1, retVal := 0 }

/-- Witness for C7: the concrete interleaving create → signal → return
reaches `handshakeFinal`, where the caller has returned with the
handler-assigned id 1. -/
theorem createWindow_handshake_witness :
    (handshakeFinal.hpc = .signalled ∨ handshakeFinal.hpc = .pumpDone) ∧
    handshakeFinal.retVal = handshakeFinal.assignedId ∧
    handshakeFinal.assignedId = handshakeFinal.windowsOpened := by
  have h1 : HandshakeStep (initHandshake 0 0) handshakeMid1 := by
    have h := HandshakeStep.handlerCreate (initHandshake 0 0) rfl
    have he : ({ initHandshake 0 0 with
        hpc := HandlerPc.created,
        windowCount := (initHandshake 0 0).windowCount + 1,
        windowsOpened := (initHandshake 0 0).windowsOpened + 1,
        assignedId := (initHandshake 0 0).windowsOpened + 1 } :
        HandshakeState) = handshakeMid1 := by
      simp [initHandshake, handshakeMid1]
    rwa [he] at h
  have h2 : HandshakeStep handshakeMid1 handshakeMid2 := by
    have h := HandshakeStep.handlerSignal handshakeMid1 rfl
    have he : ({ handshakeMid1 with
        hpc := HandlerPc.signalled,
        windowIsFinished := true } : HandshakeState) = handshakeMid2 := by
      simp [handshakeMid1, handshakeMid2]
    rwa [he] at h
  have h3 : HandshakeStep handshakeMid2 handshakeFinal := by
    have h := HandshakeStep.mainReturn handshakeMid2 rfl rfl
    have he : ({ handshakeMid2 with
        mainReturned := true,
        retVal := handshakeMid2.assignedId,
        windowIsFinished := false } : HandshakeState) = handshakeFinal := by
      simp [handshakeMid2, handshakeFinal]
    rwa [he] at h
  have hchain : Relation.ReflTransGen HandshakeStep (initHandshake 0 0)
      handshakeFinal :=
    Relation.ReflTransGen.head h1
      (Relation.ReflTransGen.head h2
        (Relation.ReflTransGen.head h3 Relation.ReflTransGen.refl))
  exact createWindow_handshake 0 0 handshakeFinal hchain rfl

end GGFW
